import Mathlib

/-!
Verification of the rs-hack MCP server glue layer (`src/mcp-example/server.py`).

The layer consists of a subprocess bridge `run_rs_hack` and thirteen tool
functions.  Each tool builds an argument vector from its typed parameters,
hands it to the bridge and shapes the bridge's result into a response string.
The subprocess itself and the Python `json` library are external to the
repository, so they are modelled as inputs: a `ProcOutcome` describes how the
child process ended, and a `jsonLoads`/`dumps` function stands for
`json.loads`/`json.dumps`.  Each tool function is split into an `_args`
definition (the argument-vector construction) and a `_response` definition
(the post-bridge shaping); both are literal translations of the Python.
-/

/-- Decoded JSON values, the payload type of `json.loads`. -/
inductive Json where
  | null
  | bool (b : Bool)
  | num (n : Int)
  | str (s : String)
  | arr (elems : List Json)
  | obj (fields : List (String × Json))

/-- The dictionary returned by `run_rs_hack`.  The Python function returns a
dict that always holds a `success` key and exactly one of the keys `data`,
`output`, `error`; absent keys are modelled as `none`. -/
structure RunResult where
  success : Bool
  data : Option Json := none
  output : Option String := none
  error : Option String := none

/-- How the `subprocess.run` call ended: normal completion with exit code and
captured streams, a `FileNotFoundError`, or any other exception (carrying its
`str(e)` text). -/
inductive ProcOutcome where
  | completed (returncode : Int) (stdout stderr : String)
  | fileNotFound (msg : String)
  | otherExc (msg : String)

/-- `{"success": True, "data": j}` -/
def successData (j : Json) : RunResult := { success := true, data := some j }

/-- `{"success": True, "output": o}` -/
def successOutput (o : String) : RunResult := { success := true, output := some o }

/-- `{"success": False, "error": e}` -/
def failureResult (e : String) : RunResult := { success := false, error := some e }

/-- `result.get("output", "")` / `result["error"]` style access (the bridge
always populates `error` on failure, see `run_rs_hack_result_shape`). -/
def orEmpty (o : Option String) : String := o.getD ""

/-- Python `str.strip()`: drop leading and trailing whitespace.  Implemented
structurally over the character list so that closed instances evaluate. -/
def pyStrip (s : String) : String :=
  ⟨((s.data.dropWhile Char.isWhitespace).reverse.dropWhile Char.isWhitespace).reverse⟩

/-- Python `str.startswith(pre)`. -/
def pyStartsWith (s pre : String) : Bool := pre.data.isPrefixOf s.data

/-- Occurrence of `pat` somewhere in a character list. -/
def containsSub (pat : List Char) : List Char → Bool
  | [] => pat.isEmpty
  | c :: rest => pat.isPrefixOf (c :: rest) || containsSub pat rest

/-- Python `pat in s`: substring occurrence test. -/
def containsStr (s pat : String) : Bool := containsSub pat.data s.data

/-- The subprocess bridge `run_rs_hack` of server.py, lines 40-72.
`jsonLoads` stands for `json.loads` (returning `none` on `JSONDecodeError`);
the outer `["rs-hack"] + args` and the subprocess call itself are summarised
by the `ProcOutcome` argument. -/
def run_rs_hack (jsonLoads : String → Option Json) (oc : ProcOutcome) : RunResult :=
  match oc with
  | .completed rc stdout stderr =>
    let output := pyStrip stdout
    let parsed :=
      if pyStartsWith output "\x7b" || pyStartsWith output "[" then jsonLoads output else none
    match parsed with
    | some j => successData j
    | none =>
      if rc = 0 then
        successOutput output
      else
        let e := pyStrip stderr
        failureResult (if e = "" then pyStrip stdout else e)
  | .fileNotFound _ => failureResult "rs-hack not found. Install with: cargo install rs-hack"
  | .otherExc msg => failureResult msg

/-- Python `if name: args.extend([flag, name])` for an optional string
parameter: the pair is appended only when the value is present and truthy
(non-empty). -/
def optFlag (flag : String) (v : Option String) : List String :=
  match v with
  | some s => if s = "" then [] else [flag, s]
  | none => []

/-- Python `if apply: args.append("--apply")`. -/
def applyFlag (apply : Bool) : List String := if apply then ["--apply"] else []

/-- A concrete decoder standing for `json.loads` in witnesses: it decodes the
two-character text consisting of an opening and a closing curly brace to the
empty object and rejects everything else. -/
def decodeEmptyObj : String → Option Json :=
  fun s => if s = "\x7b\x7d" then some (Json.obj []) else none

/-! ## Tool argument-vector builders (server.py, the `args = [...]` parts) -/

/-- server.py lines 100-102. -/
def inspect_struct_literals_args (path : String) (name : Option String)
    (format : String) : List String :=
  ["inspect", "--path", path, "--node-type", "struct-literal", "--format", format]
    ++ optFlag "--name" name

/-- server.py lines 126-128. -/
def inspect_match_arms_args (path : String) (name : Option String)
    (format : String) : List String :=
  ["inspect", "--path", path, "--node-type", "match-arm", "--format", format]
    ++ optFlag "--name" name

/-- server.py lines 155-156. -/
def inspect_enum_usage_args (path name format : String) : List String :=
  ["inspect", "--path", path, "--node-type", "enum-usage", "--name", name, "--format", format]

/-- server.py lines 185-188. -/
def inspect_macro_calls_args (path name : String) (content_filter : Option String)
    (format : String) : List String :=
  ["inspect", "--path", path, "--node-type", "macro-call", "--name", name, "--format", format]
    ++ optFlag "--content-filter" content_filter

/-- server.py lines 228-235. -/
def add_struct_field_args (path struct_name field : String)
    (position literal_default : Option String) (apply : Bool) : List String :=
  ["add-struct-field", "--path", path, "--struct-name", struct_name, "--field", field]
    ++ optFlag "--position" position
    ++ optFlag "--literal-default" literal_default
    ++ applyFlag apply

/-- server.py lines 264-266. -/
def update_struct_field_args (path struct_name field : String) (apply : Bool) : List String :=
  ["update-struct-field", "--path", path, "--struct-name", struct_name, "--field", field]
    ++ applyFlag apply

/-- server.py lines 300-302. -/
def add_enum_variant_args (path enum_name variant : String) (apply : Bool) : List String :=
  ["add-enum-variant", "--path", path, "--enum-name", enum_name, "--variant", variant]
    ++ applyFlag apply

/-- server.py lines 340-343 (note the flag is `--paths`). -/
def rename_enum_variant_args (path enum_name old_variant new_variant : String)
    (apply : Bool) : List String :=
  ["rename-enum-variant", "--paths", path, "--enum-name", enum_name,
    "--old-variant", old_variant, "--new-variant", new_variant]
    ++ applyFlag apply

/-- server.py lines 385-398: the auto-detect branch sends
`--auto-detect --enum-name (enum_name or "") --body body`, the other branch
sends `--pattern pattern --body body`; both append the optional
`--function` pair and then the apply flag. -/
def add_match_arm_args (path pattern body : String) (function enum_name : Option String)
    (auto_detect apply : Bool) : List String :=
  (if auto_detect then
    ["add-match-arm", "--path", path, "--auto-detect", "--enum-name", orEmpty enum_name,
      "--body", body] ++ optFlag "--function" function
  else
    ["add-match-arm", "--path", path, "--pattern", pattern, "--body", body]
      ++ optFlag "--function" function)
    ++ applyFlag apply

/-- server.py lines 448-457: `--with` is sent only when the action is
`replace` and a replacement is provided (non-empty). -/
def transform_args (path node_type action : String)
    (name content_filter replacement : Option String) (apply : Bool) : List String :=
  ["transform", "--path", path, "--node-type", node_type, "--action", action]
    ++ optFlag "--name" name
    ++ optFlag "--content-filter" content_filter
    ++ (if action = "replace" then optFlag "--with" replacement else [])
    ++ applyFlag apply

/-- server.py lines 497-503. -/
def add_derive_args (path target_type name derives : String) (where_filter : Option String)
    (apply : Bool) : List String :=
  ["add-derive", "--path", path, "--target-type", target_type,
    "--name", name, "--derives", derives]
    ++ optFlag "--where" where_filter ++ applyFlag apply

/-- server.py line 528. -/
def show_history_args (limit : Int) : List String :=
  ["history", "--limit", toString limit]

/-- server.py lines 548-550. -/
def revert_operation_args (run_id : String) (force : Bool) : List String :=
  ["revert", run_id] ++ (if force then ["--force"] else [])

/-! ## Tool response shaping (server.py, the code after `result = run_rs_hack(args)`)
`dumps` stands for `json.dumps(·, indent=2)`; `result.get("data")` is `r.data`. -/

/-- server.py lines 104-107. -/
def inspect_struct_literals_response (dumps : Option Json → String) (r : RunResult) : String :=
  if r.success then
    (if orEmpty r.output = "" then dumps r.data else orEmpty r.output)
  else "Error: " ++ orEmpty r.error

/-- server.py lines 130-133. -/
def inspect_match_arms_response (dumps : Option Json → String) (r : RunResult) : String :=
  if r.success then
    (if orEmpty r.output = "" then dumps r.data else orEmpty r.output)
  else "Error: " ++ orEmpty r.error

/-- server.py lines 158-161. -/
def inspect_enum_usage_response (dumps : Option Json → String) (r : RunResult) : String :=
  if r.success then
    (if orEmpty r.output = "" then dumps r.data else orEmpty r.output)
  else "Error: " ++ orEmpty r.error

/-- server.py lines 190-193. -/
def inspect_macro_calls_response (dumps : Option Json → String) (r : RunResult) : String :=
  if r.success then
    (if orEmpty r.output = "" then dumps r.data else orEmpty r.output)
  else "Error: " ++ orEmpty r.error

/-- server.py lines 237-243. -/
def add_struct_field_response (apply : Bool) (r : RunResult) : String :=
  if r.success then
    let output := orEmpty r.output
    if !apply then
      "DRY RUN - Preview of changes:\n" ++ output ++ "\n\nUse apply=True to make changes."
    else if output = "" then "Successfully added struct field" else output
  else "Error: " ++ orEmpty r.error

/-- server.py lines 268-274. -/
def update_struct_field_response (apply : Bool) (r : RunResult) : String :=
  if r.success then
    let output := orEmpty r.output
    if !apply then
      "DRY RUN - Preview:\n" ++ output ++ "\n\nUse apply=True to make changes."
    else if output = "" then "Successfully updated struct field" else output
  else "Error: " ++ orEmpty r.error

/-- server.py lines 304-310. -/
def add_enum_variant_response (apply : Bool) (r : RunResult) : String :=
  if r.success then
    let output := orEmpty r.output
    if !apply then
      "DRY RUN - Preview:\n" ++ output ++ "\n\nUse apply=True to make changes."
    else if output = "" then "Successfully added enum variant" else output
  else "Error: " ++ orEmpty r.error

/-- server.py lines 345-351. -/
def rename_enum_variant_response (old_variant new_variant : String) (apply : Bool)
    (r : RunResult) : String :=
  if r.success then
    let output := orEmpty r.output
    if !apply then
      "DRY RUN - Preview:\n" ++ output ++ "\n\nUse apply=True to make changes."
    else if output = "" then
      "Successfully renamed " ++ old_variant ++ " to " ++ new_variant
    else output
  else "Error: " ++ orEmpty r.error

/-- server.py lines 400-406. -/
def add_match_arm_response (apply : Bool) (r : RunResult) : String :=
  if r.success then
    let output := orEmpty r.output
    if !apply then
      "DRY RUN - Preview:\n" ++ output ++ "\n\nUse apply=True to make changes."
    else if output = "" then "Successfully added match arm(s)" else output
  else "Error: " ++ orEmpty r.error

/-- server.py lines 459-465. -/
def transform_response (action : String) (apply : Bool) (r : RunResult) : String :=
  if r.success then
    let output := orEmpty r.output
    if !apply then
      "DRY RUN - Preview:\n" ++ output ++ "\n\nUse apply=True to make changes."
    else if output = "" then
      "Successfully performed " ++ action ++ " operation"
    else output
  else "Error: " ++ orEmpty r.error

/-- server.py lines 505-511. -/
def add_derive_response (apply : Bool) (r : RunResult) : String :=
  if r.success then
    let output := orEmpty r.output
    if !apply then
      "DRY RUN - Preview:\n" ++ output ++ "\n\nUse apply=True to make changes."
    else if output = "" then "Successfully added derives" else output
  else "Error: " ++ orEmpty r.error

/-- server.py lines 529-531. -/
def show_history_response (r : RunResult) : String :=
  if r.success then
    (if orEmpty r.output = "" then "No history available" else orEmpty r.output)
  else "Error: " ++ orEmpty r.error

/-- server.py lines 552-555. -/
def revert_operation_response (run_id : String) (r : RunResult) : String :=
  if r.success then
    (if orEmpty r.output = "" then "Successfully reverted operation " ++ run_id
     else orEmpty r.output)
  else "Error: " ++ orEmpty r.error

/-! ## Result-shape predicates (spec section 3) -/

/-- Success carrying decoded structured data and nothing else. -/
def isSuccessData (r : RunResult) : Prop :=
  r.success = true ∧ (∃ j, r.data = some j) ∧ r.output = none ∧ r.error = none

/-- Success carrying output text and nothing else. -/
def isSuccessText (r : RunResult) : Prop :=
  r.success = true ∧ r.data = none ∧ (∃ o, r.output = some o) ∧ r.error = none

/-- Failure carrying an error message and nothing else. -/
def isFailureMsg (r : RunResult) : Prop :=
  r.success = false ∧ r.data = none ∧ r.output = none ∧ (∃ e, r.error = some e)

/-- A result is exactly one of the three shapes. -/
def shapeInv (r : RunResult) : Prop :=
  (isSuccessData r ∨ isSuccessText r ∨ isFailureMsg r) ∧
    ¬(isSuccessData r ∧ isSuccessText r) ∧
    ¬(isSuccessData r ∧ isFailureMsg r) ∧
    ¬(isSuccessText r ∧ isFailureMsg r)

lemma shapeInv_successData (j : Json) : shapeInv (successData j) := by
  simp [shapeInv, isSuccessData, isSuccessText, isFailureMsg, successData]

lemma shapeInv_successOutput (o : String) : shapeInv (successOutput o) := by
  simp [shapeInv, isSuccessData, isSuccessText, isFailureMsg, successOutput]

lemma shapeInv_failureResult (e : String) : shapeInv (failureResult e) := by
  simp [shapeInv, isSuccessData, isSuccessText, isFailureMsg, failureResult]

/-- Claim C9 (confirmed): every result returned by `run_rs_hack`, for every
argument list and process outcome, is exactly one of success-with-data,
success-with-text, failure-with-message - never more than one at once and
never none. -/
theorem run_rs_hack_result_shape (jl : String → Option Json) (oc : ProcOutcome) :
    shapeInv (run_rs_hack jl oc) := by
  cases oc with
  | completed rc stdout stderr =>
    simp only [run_rs_hack]
    split
    · exact shapeInv_successData _
    · split
      · exact shapeInv_successOutput _
      · exact shapeInv_failureResult _
  | fileNotFound m => exact shapeInv_failureResult _
  | otherExc m => exact shapeInv_failureResult _

/-- Claim C4 (confirmed): for every argument list, when the executable is not
found (`FileNotFoundError`), `run_rs_hack` returns a failure result whose
message contains - indeed equals - the fixed installation hint. -/
theorem run_rs_hack_not_found_hint (jl : String → Option Json) (m : String) :
    (run_rs_hack jl (ProcOutcome.fileNotFound m)).success = false ∧
    (run_rs_hack jl (ProcOutcome.fileNotFound m)).error =
      some "rs-hack not found. Install with: cargo install rs-hack" ∧
    containsStr (orEmpty (run_rs_hack jl (ProcOutcome.fileNotFound m)).error)
      "rs-hack not found. Install with: cargo install rs-hack" = true :=
  ⟨rfl, rfl, rfl⟩

/-- Claim C6 (confirmed): the concrete `add_enum_variant` scenario.  With
`apply=False` the argument vector is exactly the flagged pairs with no
`--apply`, and bridge success with empty output yields a dry-run-prefixed
response; with `apply=True` the vector additionally ends in `--apply` and the
empty-output response is the fixed confirmation. -/
theorem add_enum_variant_scenario :
    add_enum_variant_args "src/types.rs" "Status" "Archived" false =
      ["add-enum-variant", "--path", "src/types.rs", "--enum-name", "Status",
        "--variant", "Archived"] ∧
    ("--apply" ∈ add_enum_variant_args "src/types.rs" "Status" "Archived" false) = False ∧
    pyStartsWith (add_enum_variant_response false (successOutput "")) "DRY RUN" = true ∧
    add_enum_variant_args "src/types.rs" "Status" "Archived" true =
      ["add-enum-variant", "--path", "src/types.rs", "--enum-name", "Status",
        "--variant", "Archived", "--apply"] ∧
    add_enum_variant_response true (successOutput "") = "Successfully added enum variant" := by
  refine ⟨rfl, ?_, rfl, rfl, rfl⟩
  decide

/-- Claim C7 (confirmed): `revert_operation` with `run_id="a05a626"` builds
exactly `["revert","a05a626"]` without force, and the same vector with
`"--force"` appended when `force=True`. -/
theorem revert_operation_args_scenario :
    revert_operation_args "a05a626" false = ["revert", "a05a626"] ∧
    revert_operation_args "a05a626" true = ["revert", "a05a626", "--force"] :=
  ⟨rfl, rfl⟩

/-- Claim C1 (counterexample): the claim as stated is false.  With exit code 1,
stdout an opening-plus-closing curly brace pair (valid JSON) and stderr
"boom", the bridge returns success-with-data, not a failure carrying "boom". -/
theorem run_rs_hack_nonzero_json_cex :
    (run_rs_hack decodeEmptyObj (ProcOutcome.completed 1 "\x7b\x7d" "boom")).success = true ∧
    (run_rs_hack decodeEmptyObj (ProcOutcome.completed 1 "\x7b\x7d" "boom")).error = none :=
  ⟨rfl, rfl⟩

/-- Claim C1 (corrected): for every completed invocation with non-zero exit
code in which the opportunistic JSON path does not fire (trimmed stdout does
not start with a curly brace or bracket, or it does but strict decoding
fails), the bridge returns a failure result whose message equals trimmed
stderr, or trimmed stdout when trimmed stderr is empty. -/
theorem run_rs_hack_nonzero_exit_failure (jl : String → Option Json) (rc : Int)
    (stdout stderr : String) (hrc : rc ≠ 0)
    (hjson : (pyStartsWith (pyStrip stdout) "\x7b" || pyStartsWith (pyStrip stdout) "[") = false ∨
      jl (pyStrip stdout) = none) :
    run_rs_hack jl (ProcOutcome.completed rc stdout stderr) =
      failureResult (if pyStrip stderr = "" then pyStrip stdout else pyStrip stderr) := by
  have hparsed : (if pyStartsWith (pyStrip stdout) "\x7b" || pyStartsWith (pyStrip stdout) "["
      then jl (pyStrip stdout) else none) = none := by
    rcases hjson with h | h
    · simp [h]
    · simp [h]
  simp only [run_rs_hack]
  rw [hparsed]
  simp [hrc]

/-- Witness for the corrected C1 theorem at a concrete input. -/
theorem run_rs_hack_nonzero_exit_failure_witness :
    ((1 : Int) ≠ 0) ∧
    run_rs_hack decodeEmptyObj (ProcOutcome.completed 1 " oops " "") = failureResult "oops" :=
  ⟨by decide,
    (run_rs_hack_nonzero_exit_failure decodeEmptyObj 1 " oops " "" (by decide)
      (Or.inl (by decide))).trans rfl⟩

/-- Claim C2 (confirmed): whenever trimmed stdout starts with a curly brace or
bracket and decodes as JSON, the bridge returns success-with-data regardless
of the exit code. -/
theorem run_rs_hack_json_success_any_exit (jl : String → Option Json) (rc : Int)
    (stdout stderr : String) (j : Json)
    (hs : (pyStartsWith (pyStrip stdout) "\x7b" || pyStartsWith (pyStrip stdout) "[") = true)
    (hj : jl (pyStrip stdout) = some j) :
    run_rs_hack jl (ProcOutcome.completed rc stdout stderr) = successData j := by
  simp only [run_rs_hack]
  rw [hs]
  simp [hj]

/-- Witness for C2 at a concrete input with non-zero exit code 7. -/
theorem run_rs_hack_json_success_any_exit_witness :
    ((pyStartsWith (pyStrip " \x7b\x7d ") "\x7b" || pyStartsWith (pyStrip " \x7b\x7d ") "[")
        = true) ∧
    run_rs_hack decodeEmptyObj (ProcOutcome.completed 7 " \x7b\x7d " "boom") =
      successData (Json.obj []) :=
  ⟨by decide,
    run_rs_hack_json_success_any_exit decodeEmptyObj 7 " \x7b\x7d " "boom" (Json.obj [])
      (by decide) rfl⟩

/-- Claim C3 (confirmed): with exit code 0 and trimmed stdout starting with a
curly brace or bracket, the bridge returns success-with-data when decoding
succeeds and success with the trimmed stdout text when decoding fails. -/
theorem run_rs_hack_zero_exit_stdout (jl : String → Option Json) (stdout stderr : String)
    (hs : (pyStartsWith (pyStrip stdout) "\x7b" || pyStartsWith (pyStrip stdout) "[") = true) :
    run_rs_hack jl (ProcOutcome.completed 0 stdout stderr) =
      (match jl (pyStrip stdout) with
       | some j => successData j
       | none => successOutput (pyStrip stdout)) := by
  simp only [run_rs_hack]
  rw [hs]
  cases jl (pyStrip stdout) <;> simp

/-- Witness for C3: a valid-JSON stdout yields decoded data, an invalid one
starting with a curly brace yields the raw trimmed text. -/
theorem run_rs_hack_zero_exit_stdout_witness :
    ((pyStartsWith (pyStrip "\x7b\x7d") "\x7b" || pyStartsWith (pyStrip "\x7b\x7d") "[")
        = true) ∧
    run_rs_hack decodeEmptyObj (ProcOutcome.completed 0 "\x7b\x7d" "") =
      successData (Json.obj []) ∧
    run_rs_hack decodeEmptyObj (ProcOutcome.completed 0 "\x7bbad" "") =
      successOutput "\x7bbad" :=
  ⟨by decide,
    (run_rs_hack_zero_exit_stdout decodeEmptyObj "\x7b\x7d" "" (by decide)).trans rfl,
    (run_rs_hack_zero_exit_stdout decodeEmptyObj "\x7bbad" "" (by decide)).trans rfl⟩

lemma dry_prefix_append (rest o s : String) :
    ∃ t, (("DRY RUN" ++ rest) ++ o) ++ s = "DRY RUN" ++ t :=
  ⟨rest ++ (o ++ s),
    by rw [String.append_assoc, String.append_assoc]⟩

/-- Claim C5 (counterexample): the claim as stated is false.  With
`apply=True` the tool returns the bridge output verbatim, so when the
external binary itself prints a line containing "DRY RUN" the response
contains the banner text. -/
theorem apply_true_banner_cex :
    containsStr
      (add_struct_field_response true (successOutput "DRY RUN - Preview:\nnothing to do"))
      "DRY RUN" = true := by
  decide

/-- Claim C5 (corrected): for every apply-capable tool, on a successful bridge
result: with `apply` false the response is prefixed with the dry-run banner;
with `apply` true the tool adds no banner - the response is the bridge output
verbatim or the tool's fixed confirmation message, so it contains the banner
only when the output itself already does. -/
theorem dry_run_banner_shaping (old_variant new_variant action : String) (r : RunResult)
    (hr : r.success = true) :
    ((∃ t, add_struct_field_response false r = "DRY RUN" ++ t) ∧
      (add_struct_field_response true r = orEmpty r.output ∨
        add_struct_field_response true r = "Successfully added struct field")) ∧
    ((∃ t, update_struct_field_response false r = "DRY RUN" ++ t) ∧
      (update_struct_field_response true r = orEmpty r.output ∨
        update_struct_field_response true r = "Successfully updated struct field")) ∧
    ((∃ t, add_enum_variant_response false r = "DRY RUN" ++ t) ∧
      (add_enum_variant_response true r = orEmpty r.output ∨
        add_enum_variant_response true r = "Successfully added enum variant")) ∧
    ((∃ t, rename_enum_variant_response old_variant new_variant false r = "DRY RUN" ++ t) ∧
      (rename_enum_variant_response old_variant new_variant true r = orEmpty r.output ∨
        rename_enum_variant_response old_variant new_variant true r =
          "Successfully renamed " ++ old_variant ++ " to " ++ new_variant)) ∧
    ((∃ t, add_match_arm_response false r = "DRY RUN" ++ t) ∧
      (add_match_arm_response true r = orEmpty r.output ∨
        add_match_arm_response true r = "Successfully added match arm(s)")) ∧
    ((∃ t, transform_response action false r = "DRY RUN" ++ t) ∧
      (transform_response action true r = orEmpty r.output ∨
        transform_response action true r =
          "Successfully performed " ++ action ++ " operation")) ∧
    ((∃ t, add_derive_response false r = "DRY RUN" ++ t) ∧
      (add_derive_response true r = orEmpty r.output ∨
        add_derive_response true r = "Successfully added derives")) := by
  have hban1 : ("DRY RUN - Preview of changes:\n" : String) =
      "DRY RUN" ++ " - Preview of changes:\n" := rfl
  have hban2 : ("DRY RUN - Preview:\n" : String) = "DRY RUN" ++ " - Preview:\n" := rfl
  refine ⟨⟨?_, ?_⟩, ⟨?_, ?_⟩, ⟨?_, ?_⟩, ⟨?_, ?_⟩, ⟨?_, ?_⟩, ⟨?_, ?_⟩, ⟨?_, ?_⟩⟩
  · simp only [add_struct_field_response, hr, if_true, Bool.not_false, hban1]
    exact dry_prefix_append _ _ _
  · by_cases ho : orEmpty r.output = "" <;> simp [add_struct_field_response, hr, ho]
  · simp only [update_struct_field_response, hr, if_true, Bool.not_false, hban2]
    exact dry_prefix_append _ _ _
  · by_cases ho : orEmpty r.output = "" <;> simp [update_struct_field_response, hr, ho]
  · simp only [add_enum_variant_response, hr, if_true, Bool.not_false, hban2]
    exact dry_prefix_append _ _ _
  · by_cases ho : orEmpty r.output = "" <;> simp [add_enum_variant_response, hr, ho]
  · simp only [rename_enum_variant_response, hr, if_true, Bool.not_false, hban2]
    exact dry_prefix_append _ _ _
  · by_cases ho : orEmpty r.output = "" <;> simp [rename_enum_variant_response, hr, ho]
  · simp only [add_match_arm_response, hr, if_true, Bool.not_false, hban2]
    exact dry_prefix_append _ _ _
  · by_cases ho : orEmpty r.output = "" <;> simp [add_match_arm_response, hr, ho]
  · simp only [transform_response, hr, if_true, Bool.not_false, hban2]
    exact dry_prefix_append _ _ _
  · by_cases ho : orEmpty r.output = "" <;> simp [transform_response, hr, ho]
  · simp only [add_derive_response, hr, if_true, Bool.not_false, hban2]
    exact dry_prefix_append _ _ _
  · by_cases ho : orEmpty r.output = "" <;> simp [add_derive_response, hr, ho]

/-- Witness for the corrected C5 theorem at a concrete successful result. -/
theorem dry_run_banner_shaping_witness :
    (successOutput "line1").success = true ∧
    (∃ t, add_struct_field_response false (successOutput "line1") = "DRY RUN" ++ t) :=
  ⟨rfl,
    (dry_run_banner_shaping "Draft" "Pending" "comment" (successOutput "line1") rfl).1.1⟩

/-- Claim C8 (confirmed): for every registered tool and every parameter set,
a bridge failure with message `m` is rendered as exactly `"Error: "` followed
by `m`. -/
theorem tools_failure_error_format (m : String) (dumps : Option Json → String)
    (apply : Bool) (old_variant new_variant action run_id : String) :
    inspect_struct_literals_response dumps (failureResult m) = "Error: " ++ m ∧
    inspect_match_arms_response dumps (failureResult m) = "Error: " ++ m ∧
    inspect_enum_usage_response dumps (failureResult m) = "Error: " ++ m ∧
    inspect_macro_calls_response dumps (failureResult m) = "Error: " ++ m ∧
    add_struct_field_response apply (failureResult m) = "Error: " ++ m ∧
    update_struct_field_response apply (failureResult m) = "Error: " ++ m ∧
    add_enum_variant_response apply (failureResult m) = "Error: " ++ m ∧
    rename_enum_variant_response old_variant new_variant apply (failureResult m)
      = "Error: " ++ m ∧
    add_match_arm_response apply (failureResult m) = "Error: " ++ m ∧
    transform_response action apply (failureResult m) = "Error: " ++ m ∧
    add_derive_response apply (failureResult m) = "Error: " ++ m ∧
    show_history_response (failureResult m) = "Error: " ++ m ∧
    revert_operation_response run_id (failureResult m) = "Error: " ++ m :=
  ⟨rfl, rfl, rfl, rfl, rfl, rfl, rfl, rfl, rfl, rfl, rfl, rfl, rfl⟩

/-- Claim C10 (counterexample): the claim as stated is false.  In auto-detect
mode `add_match_arm` sends `--enum-name` even though `enum_name` is omitted
(with an empty value), and `transform` drops a provided non-empty
`replacement` when the action is not "replace". -/
theorem optional_flag_pairs_cex :
    ("--enum-name" ∈ add_match_arm_args "src/h.rs" "" "todo!()" none none true false) ∧
    ¬ ("--with" ∈ transform_args "src/a.rs" "function-call" "comment" none none
        (some "new_fn") false) := by
  decide

/-- Claim C10 (corrected): for the optional string parameters `name`,
`position`, `literal_default`, `content_filter`, `function` and
`where_filter`, the flag-plus-value pair is included in the built argument
vector exactly when the parameter is provided and non-empty, and is absent
when the parameter is omitted or empty.  Two exceptions forced by the code:
`transform`'s `replacement` is forwarded as `--with` only when additionally
the action is "replace", and `add_match_arm`'s `enum_name` is forwarded only
in auto-detect mode, where `--enum-name` is always sent with the provided
value or the empty string. -/
theorem optional_flag_pairs (p sn f n fmt body pat nt tt d s : String) (hs : s ≠ "") :
    (inspect_struct_literals_args p (some s) fmt =
      ["inspect", "--path", p, "--node-type", "struct-literal", "--format", fmt,
        "--name", s]) ∧
    (inspect_struct_literals_args p none fmt =
      ["inspect", "--path", p, "--node-type", "struct-literal", "--format", fmt]) ∧
    (inspect_struct_literals_args p (some "") fmt =
      ["inspect", "--path", p, "--node-type", "struct-literal", "--format", fmt]) ∧
    (inspect_macro_calls_args p n (some s) fmt =
      ["inspect", "--path", p, "--node-type", "macro-call", "--name", n, "--format", fmt,
        "--content-filter", s]) ∧
    (inspect_macro_calls_args p n none fmt =
      ["inspect", "--path", p, "--node-type", "macro-call", "--name", n, "--format", fmt]) ∧
    (inspect_macro_calls_args p n (some "") fmt =
      ["inspect", "--path", p, "--node-type", "macro-call", "--name", n, "--format", fmt]) ∧
    (add_struct_field_args p sn f (some s) none false =
      ["add-struct-field", "--path", p, "--struct-name", sn, "--field", f,
        "--position", s]) ∧
    (add_struct_field_args p sn f none (some s) false =
      ["add-struct-field", "--path", p, "--struct-name", sn, "--field", f,
        "--literal-default", s]) ∧
    (add_struct_field_args p sn f none none false =
      ["add-struct-field", "--path", p, "--struct-name", sn, "--field", f]) ∧
    (add_struct_field_args p sn f (some "") (some "") false =
      ["add-struct-field", "--path", p, "--struct-name", sn, "--field", f]) ∧
    (add_match_arm_args p pat body (some s) none false false =
      ["add-match-arm", "--path", p, "--pattern", pat, "--body", body, "--function", s]) ∧
    (add_match_arm_args p pat body none none false false =
      ["add-match-arm", "--path", p, "--pattern", pat, "--body", body]) ∧
    (add_match_arm_args p pat body none (some s) false false =
      ["add-match-arm", "--path", p, "--pattern", pat, "--body", body]) ∧
    (add_match_arm_args p pat body none none true false =
      ["add-match-arm", "--path", p, "--auto-detect", "--enum-name", "", "--body", body]) ∧
    (add_match_arm_args p pat body none (some s) true false =
      ["add-match-arm", "--path", p, "--auto-detect", "--enum-name", s, "--body", body]) ∧
    (add_derive_args p tt n d (some s) false =
      ["add-derive", "--path", p, "--target-type", tt, "--name", n, "--derives", d,
        "--where", s]) ∧
    (add_derive_args p tt n d none false =
      ["add-derive", "--path", p, "--target-type", tt, "--name", n, "--derives", d]) ∧
    (transform_args p nt "replace" none none (some s) false =
      ["transform", "--path", p, "--node-type", nt, "--action", "replace", "--with", s]) ∧
    (transform_args p nt "replace" none none none false =
      ["transform", "--path", p, "--node-type", nt, "--action", "replace"]) ∧
    (transform_args p nt "comment" none none (some s) false =
      ["transform", "--path", p, "--node-type", nt, "--action", "comment"]) := by
  simp [inspect_struct_literals_args, inspect_macro_calls_args, add_struct_field_args,
    add_match_arm_args, add_derive_args, transform_args, optFlag, applyFlag, orEmpty, hs]

/-- Witness for the corrected C10 theorem at concrete inputs. -/
theorem optional_flag_pairs_witness :
    ("Shadow" ≠ "") ∧
    inspect_struct_literals_args "src/a.rs" (some "Shadow") "snippets" =
      ["inspect", "--path", "src/a.rs", "--node-type", "struct-literal", "--format",
        "snippets", "--name", "Shadow"] :=
  ⟨by decide,
    (optional_flag_pairs "src/a.rs" "sn" "f" "n" "snippets" "b" "pat" "nt" "tt" "d"
      "Shadow" (by decide)).1⟩
